import Mathlib

-- Verification development for the new-educt front end.
-- The React components are embedded as pure state-transition functions:
-- each useState variable becomes a record field, each event handler becomes
-- a function from the old state (plus any event data) to the new state, and
-- each HTTP call is split into the synchronous part that issues the request
-- and a continuation applied to an abstract outcome of that request.

-- JavaScript String.prototype.trim, embedded on the character list:
-- whitespace is stripped from both ends.
def jsTrim (t : String) : String :=
  String.mk (((t.data.dropWhile Char.isWhitespace).reverse.dropWhile
    Char.isWhitespace).reverse)

-- JavaScript String.prototype.toLowerCase, embedded as a character map.
def jsToLower (t : String) : String :=
  String.mk (t.data.map Char.toLower)

-- Embedding of replace with a global whitespace-run pattern and dash
-- replacement: each maximal run of whitespace characters becomes one dash.
-- The Boolean flag records whether the previous character was whitespace.
def collapseWsAux : Bool → List Char → List Char
  | _, [] => []
  | prevWs, c :: rest =>
    if c.isWhitespace then
      (if prevWs then [] else ['-']) ++ collapseWsAux true rest
    else
      c :: collapseWsAux false rest

def replaceWsRuns (t : String) : String :=
  String.mk (collapseWsAux false t.data)

-- ### content.tsx : TacticalContentGenerator

-- The FormData interface of content.tsx.
structure FormData where
  contentType : String
  topic : String
  tactics : List String
  tone : String
  length : String
  complexity : String
  audience : String
  keywords : String
  examples : String
  humorLevel : String
  deriving DecidableEq, Repr

-- Default form values passed to useState in content.tsx.
def initFormData : FormData :=
  { contentType := "strategy"
    topic := ""
    tactics := []
    tone := "professional"
    length := "medium"
    complexity := "intermediate"
    audience := ""
    keywords := ""
    examples := "yes"
    humorLevel := "none" }

-- The six useState variables of TacticalContentGenerator.
structure GenState where
  formData : FormData
  currentStep : Nat
  loading : Bool
  content : String
  showAdvanced : Bool
  error : String
  deriving DecidableEq, Repr

def initGenState : GenState :=
  { formData := initFormData
    currentStep := 0
    loading := false
    content := ""
    showAdvanced := false
    error := "" }

-- The named text and select inputs handled by handleChange
-- (tactics is handled separately by handleTacticSelect).
inductive FormField where
  | contentType | topic | tone | lengthField | complexity
  | audience | keywords | examples | humorLevel
  deriving DecidableEq, Repr

def setFormField (f : FormData) : FormField → String → FormData
  | .contentType, v => { f with contentType := v }
  | .topic, v => { f with topic := v }
  | .tone, v => { f with tone := v }
  | .lengthField, v => { f with length := v }
  | .complexity, v => { f with complexity := v }
  | .audience, v => { f with audience := v }
  | .keywords, v => { f with keywords := v }
  | .examples, v => { f with examples := v }
  | .humorLevel, v => { f with humorLevel := v }

-- handleChange: stores the new value under the named field and clears any
-- error message (setError of the empty string when error is truthy has the
-- same net effect as always clearing).
def handleChange (s : GenState) (fld : FormField) (v : String) : GenState :=
  { s with formData := setFormField s.formData fld v, error := "" }

-- handleTacticSelect: removes the value when present, appends it otherwise,
-- then clears any error message.
def handleTacticSelect (s : GenState) (v : String) : GenState :=
  let newTactics :=
    if v ∈ s.formData.tactics then
      s.formData.tactics.filter (fun t => t ≠ v)
    else
      s.formData.tactics ++ [v]
  { s with formData := { s.formData with tactics := newTactics }, error := "" }

-- isCurrentStepValid: pure validity check used for button styling.
def isCurrentStepValid (s : GenState) (stepIndex : Nat) : Bool :=
  match stepIndex with
  | 0 => !(jsTrim s.formData.topic == "")
  | 1 => decide (s.formData.tactics.length > 0)
  | _ => true

-- validateStep: clears the error, then checks the required fields of the
-- given step, setting an error message and returning false on failure.
def validateStep (stepIndex : Nat) (s : GenState) : Bool × GenState :=
  let s0 := { s with error := "" }
  match stepIndex with
  | 0 =>
    if jsTrim s0.formData.topic = "" then
      (false, { s0 with
        error := "Please provide a \"Core Query\" (topic) to proceed." })
    else (true, s0)
  | 1 =>
    if s0.formData.tactics = [] then
      (false, { s0 with
        error := "Please select at least one \"Operational Framework\" to proceed." })
    else (true, s0)
  | _ => (true, s0)

-- steps.length - 1 = 3 in content.tsx (four steps).
def lastStepIndex : Nat := 3

-- handleNextStep: validate the current step, then advance and clear errors
-- when not already on the last step.
def handleNextStep (s : GenState) : GenState :=
  let r := validateStep s.currentStep s
  if r.1 then
    if s.currentStep < lastStepIndex then
      { r.2 with currentStep := r.2.currentStep + 1, error := "" }
    else r.2
  else r.2

-- handlePrevStep: step back and clear errors when not on the first step.
def handlePrevStep (s : GenState) : GenState :=
  if s.currentStep > 0 then
    { s with currentStep := s.currentStep - 1, error := "" }
  else s

-- The JSON payload POSTed to the generate-content endpoint.
structure Payload where
  contentType : String
  topic : String
  tactics : List String
  tone : String
  length : String
  complexity : String
  audience : String
  keywords : String
  examples : String
  humorLevel : String
  deriving DecidableEq, Repr

def mkPayload (f : FormData) : Payload :=
  { contentType := f.contentType
    topic := f.topic
    tactics := f.tactics
    tone := f.tone
    length := f.length
    complexity := f.complexity
    audience := f.audience
    keywords := f.keywords
    examples := f.examples
    humorLevel := f.humorLevel }

-- Abstract outcome of the awaited fetch in generateContent.
-- success carries the optional content field of the parsed ok body
-- (none models an absent field, some of the empty string an empty one);
-- httpError carries the HTTP status and the optional message field of the
-- parsed error body; networkError models fetch rejecting with an Error
-- whose message is carried; thrownNonError models a non-Error throw.
inductive FetchOutcome where
  | success (content : Option String)
  | httpError (status : Nat) (message : Option String)
  | networkError (msg : String)
  | thrownNonError
  deriving DecidableEq, Repr

-- Synchronous prefix of generateContent: the guard clause, then the state
-- updates performed before the request is issued. The first component is
-- the request payload, none when no request is issued.
def generateContentStart (s : GenState) : Option Payload × GenState :=
  if jsTrim s.formData.topic = "" ∨ s.formData.tactics = [] then
    (none, { s with error := "Please complete all previous required fields." })
  else
    (some (mkPayload s.formData),
     { s with loading := true, error := "", content := "" })

-- Continuation of generateContent applied to the fetch outcome, covering
-- the try branch from the response check onward, the catch branch and the
-- finally branch.
def generateContentFinish (s : GenState) (o : FetchOutcome) : GenState :=
  let s1 :=
    match o with
    | .success c =>
      match c with
      | some str =>
        if str = "" then
          { s with error := "No content received from backend server" }
        else { s with content := str }
      | none => { s with error := "No content received from backend server" }
    | .httpError status m =>
      let msg :=
        match m with
        | some em => if em = "" then "Server error: " ++ toString status else em
        | none => "Server error: " ++ toString status
      { s with error := msg }
    | .networkError msg =>
      { s with error :=
          if msg = "" then
            "Failed to generate content. Please check your network and try again."
          else msg }
    | .thrownNonError =>
      { s with error := "An unexpected error occurred during content generation." }
  { s1 with loading := false }

-- generateContent as a whole: issue the request (or not) and, when it was
-- issued, consume the outcome of the await.
def generateContent (s : GenState) (o : FetchOutcome) :
    Option Payload × GenState :=
  let r := generateContentStart s
  match r.1 with
  | none => (none, r.2)
  | some p => (some p, generateContentFinish r.2 o)

-- True exactly on the outcomes on which the fetch in generateContent fails
-- (everything except an ok response with a parsed body).
def genFailed : FetchOutcome → Bool
  | .success _ => false
  | _ => true

-- downloadMarkdown: returns the filename of the triggered download, none
-- when there is no generated content and hence no download.
def downloadMarkdown (s : GenState) : Option String :=
  if s.content = "" then none
  else
    let transformed := jsToLower (replaceWsRuns s.formData.topic)
    some ("tactical-content-" ++
      (if transformed = "" then "untitled" else transformed) ++ ".md")

-- clearForm: reset the listed pieces of state to their defaults.
def clearForm (s : GenState) : GenState :=
  { s with
    formData := initFormData
    content := ""
    error := ""
    currentStep := 0
    showAdvanced := false }

-- Events the TacticalContentGenerator UI can deliver, with the guards the
-- rendered markup enforces: the generate button is disabled while loading
-- and rendered only on step 3, the reset button is rendered only on step 3,
-- and a fetch outcome can only arrive while a request is pending.
inductive GenEvent where
  | change (fld : FormField) (v : String)
  | tacticSelect (v : String)
  | nextStep
  | prevStep
  | toggleAdvanced
  | generateStart
  | generateFinish (o : FetchOutcome)
  | clear
  deriving Repr

def genStep (s : GenState) : GenEvent → Option GenState
  | .change fld v => some (handleChange s fld v)
  | .tacticSelect v => some (handleTacticSelect s v)
  | .nextStep => some (handleNextStep s)
  | .prevStep => some (handlePrevStep s)
  | .toggleAdvanced => some { s with showAdvanced := !s.showAdvanced }
  | .generateStart =>
    if s.loading = false ∧ s.currentStep = lastStepIndex then
      some (generateContentStart s).2
    else none
  | .generateFinish o =>
    if s.loading = true then some (generateContentFinish s o) else none
  | .clear =>
    if s.currentStep = lastStepIndex then some (clearForm s) else none

-- States of TacticalContentGenerator reachable from the initial render.
inductive GenReachable : GenState → Prop where
  | init : GenReachable initGenState
  | step {s s' : GenState} {e : GenEvent} :
      GenReachable s → genStep s e = some s' → GenReachable s'

-- ### fileUpload.tsx : FileUploader

-- The browser File object as the component consumes it: its name and its
-- MIME type.
structure UFile where
  name : String
  type : String
  deriving DecidableEq, Repr

-- The SectionItem interface; its first field is called section in the
-- source, a reserved word in Lean, hence the name sectionTitle here.
structure SectionItem where
  sectionTitle : String
  explanation : String
  deriving DecidableEq, Repr

structure RelatedBook where
  title : String
  author : String
  deriving DecidableEq, Repr

structure TechTerm where
  term : String
  definition : String
  deriving DecidableEq, Repr

-- The InsightData interface of fileUpload.tsx.
structure InsightData where
  keyConcepts : List SectionItem
  readingGuide : List String
  relatedBooks : List RelatedBook
  contextualExplanation : List SectionItem
  importantSections : List SectionItem
  deriving DecidableEq, Repr

-- The AnalysisData interface of fileUpload.tsx.
structure AnalysisData where
  summary : List SectionItem
  keyPoints : List SectionItem
  actionItems : List SectionItem
  followUpQuestions : List SectionItem
  technicalTerms : List TechTerm
  deriving DecidableEq, Repr

inductive UploadTab where
  | insights | analysis
  deriving DecidableEq, Repr

-- The useState variables of FileUploader.
structure UploadState where
  loadingInsights : Bool
  loadingAnalysis : Bool
  fileName : String
  file : Option UFile
  activeTab : UploadTab
  insightData : Option InsightData
  analysisData : Option AnalysisData
  error : Option String
  isDragging : Bool
  deriving DecidableEq, Repr

def initUploadState : UploadState :=
  { loadingInsights := false
    loadingAnalysis := false
    fileName := ""
    file := none
    activeTab := .insights
    insightData := none
    analysisData := none
    error := none
    isDragging := false }

def acceptedTypes : List String :=
  ["application/pdf",
   "application/vnd.openxmlformats-officedocument.wordprocessingml.document"]

-- handleFileSelection: clear previous error and results, then either accept
-- the file or reject it with an error message.
def handleFileSelection (s : UploadState) (f : UFile) : UploadState :=
  let s0 := { s with error := none, insightData := none, analysisData := none }
  if f.type ∈ acceptedTypes then
    { s0 with file := some f, fileName := f.name }
  else
    { s0 with
      error := some "Unsupported file type. Please upload a PDF or DOCX file."
      file := none
      fileName := "" }

-- Abstract outcome of the awaited axios post in commonRequestConfig.
-- success carries the parsed response data; axiosError carries the optional
-- error field of the error response data (none also covers a missing
-- response, as with a network failure); otherError models a non-axios
-- throw.
inductive AxiosOutcome (α : Type) where
  | success (data : α)
  | axiosError (respError : Option String)
  | otherError
  deriving DecidableEq, Repr

def axiosFailed {α : Type} : AxiosOutcome α → Bool
  | .success _ => false
  | _ => true

-- commonRequestConfig instantiated for the insights endpoint with
-- setInsightData and setLoadingInsights. The Boolean result records
-- whether the HTTP request was issued.
def handleInsights (s : UploadState) (w : AxiosOutcome InsightData) :
    Bool × UploadState :=
  match s.file with
  | none => (false, { s with error := some "Please select a file first." })
  | some _ =>
    let s1 := { s with loadingInsights := true, insightData := none, error := none }
    let s2 :=
      match w with
      | .success d => { s1 with insightData := some d, activeTab := .insights }
      | .axiosError respError =>
        let msg :=
          match respError with
          | some e => if e = "" then "Failed to insights. Please try again." else e
          | none => "Failed to insights. Please try again."
        { s1 with error := some msg }
      | .otherError =>
        { s1 with error := some "An unexpected error occurred during insights." }
    (true, { s2 with loadingInsights := false })

-- commonRequestConfig instantiated for the analyze endpoint with
-- setAnalysisData and setLoadingAnalysis.
def handleAnalyze (s : UploadState) (w : AxiosOutcome AnalysisData) :
    Bool × UploadState :=
  match s.file with
  | none => (false, { s with error := some "Please select a file first." })
  | some _ =>
    let s1 := { s with loadingAnalysis := true, analysisData := none, error := none }
    let s2 :=
      match w with
      | .success d => { s1 with analysisData := some d, activeTab := .analysis }
      | .axiosError respError =>
        let msg :=
          match respError with
          | some e => if e = "" then "Failed to analyze. Please try again." else e
          | none => "Failed to analyze. Please try again."
        { s1 with error := some msg }
      | .otherError =>
        { s1 with error := some "An unexpected error occurred during analyze." }
    (true, { s2 with loadingAnalysis := false })

-- ### service/api.ts

-- Each wrapper posts its argument and projects one field out of the typed
-- response body; the response is passed explicitly here.

structure UploadFileResponse where
  text : String
  deriving DecidableEq, Repr

def uploadFile (_file : UFile) (res : UploadFileResponse) : String :=
  res.text

structure RewriteTextResponse where
  result : String
  deriving DecidableEq, Repr

def rewriteText (_text : String) (res : RewriteTextResponse) : String :=
  res.result

structure DigestTextResponse where
  result : String
  deriving DecidableEq, Repr

def digestText (_text : String) (res : DigestTextResponse) : String :=
  res.result

structure GenerateTopicsResponse where
  topics : List String
  deriving DecidableEq, Repr

def generateTopics (_text : String) (res : GenerateTopicsResponse) : List String :=
  res.topics

-- ### Theorems

/-- C1: with the form on step 0, handleNextStep advances currentStep from 0
to 1 exactly when the trimmed topic is non-empty; on a blank topic the step
stays 0 and the Core Query error message is set. -/
theorem c1_next_step_topic_gate (s : GenState) (h : s.currentStep = 0) :
    ((handleNextStep s).currentStep = 1 ↔ jsTrim s.formData.topic ≠ "") ∧
    (jsTrim s.formData.topic = "" →
      (handleNextStep s).currentStep = 0 ∧
      (handleNextStep s).error =
        "Please provide a \"Core Query\" (topic) to proceed.") := by
  by_cases ht : jsTrim s.formData.topic = "" <;>
    simp [handleNextStep, validateStep, h, ht, lastStepIndex]

/-- Witness for C1: from the initial state the blank topic blocks the step
and sets the message, while a filled-in topic advances to step 1. -/
theorem c1_next_step_topic_gate_witness :
    ((handleNextStep initGenState).currentStep = 0 ∧
     (handleNextStep initGenState).error =
       "Please provide a \"Core Query\" (topic) to proceed.") ∧
    (handleNextStep
      { initGenState with
        formData := { initFormData with topic := "Quantum" } }).currentStep = 1 :=
  ⟨(c1_next_step_topic_gate initGenState rfl).2 rfl,
   ((c1_next_step_topic_gate
      { initGenState with
        formData := { initFormData with topic := "Quantum" } } rfl).1).mpr
     (by decide)⟩

/-- C2: when the trimmed topic is blank or no tactic is selected,
generateContent sets the completion error, issues no request and leaves the
loading flag and the generated content unchanged. -/
theorem c2_generate_blocked (s : GenState) (o : FetchOutcome)
    (h : jsTrim s.formData.topic = "" ∨ s.formData.tactics = []) :
    (generateContent s o).1 = none ∧
    (generateContent s o).2.error =
      "Please complete all previous required fields." ∧
    (generateContent s o).2.loading = s.loading ∧
    (generateContent s o).2.content = s.content := by
  unfold generateContent generateContentStart
  rw [if_pos h]
  exact ⟨rfl, rfl, rfl, rfl⟩

/-- Witness for C2: the initial state has a blank topic, so generateContent
is blocked there whatever the network would have answered. -/
theorem c2_generate_blocked_witness :
    (generateContent initGenState FetchOutcome.thrownNonError).1 = none ∧
    (generateContent initGenState FetchOutcome.thrownNonError).2.error =
      "Please complete all previous required fields." ∧
    (generateContent initGenState FetchOutcome.thrownNonError).2.loading =
      initGenState.loading ∧
    (generateContent initGenState FetchOutcome.thrownNonError).2.content =
      initGenState.content :=
  c2_generate_blocked initGenState FetchOutcome.thrownNonError
    (Or.inl (by decide))

/-- C6: each service wrapper returns exactly the designated field of the
typed response body, unchanged. -/
theorem c6_api_wrappers_project_designated_field (f : UFile)
    (t1 t2 t3 : String) (r1 : UploadFileResponse) (r2 : RewriteTextResponse)
    (r3 : DigestTextResponse) (r4 : GenerateTopicsResponse) :
    uploadFile f r1 = r1.text ∧ rewriteText t1 r2 = r2.result ∧
    digestText t2 r3 = r3.result ∧ generateTopics t3 r4 = r4.topics :=
  ⟨rfl, rfl, rfl, rfl⟩

-- A string with a non-empty left part stays non-empty after appending.
theorem append_left_ne_empty (s t : String) (h : s ≠ "") : s ++ t ≠ "" := by
  intro he
  apply h
  rw [String.ext_iff] at he ⊢
  rw [String.data_append] at he
  simpa using (List.append_eq_nil.mp (by simpa using he)).1

-- On every failing fetch outcome the continuation of generateContent stores
-- a non-empty error message and drops the loading flag.
theorem generateContentFinish_failed (s : GenState) (o : FetchOutcome)
    (h : genFailed o = true) :
    (generateContentFinish s o).error ≠ "" ∧
    (generateContentFinish s o).loading = false := by
  cases o with
  | success c => simp [genFailed] at h
  | httpError status m =>
    refine ⟨?_, rfl⟩
    cases m with
    | none =>
      exact append_left_ne_empty "Server error: " (toString status) (by decide)
    | some em =>
      show (if em = "" then "Server error: " ++ toString status else em) ≠ ""
      by_cases he : em = ""
      · rw [if_pos he]
        exact append_left_ne_empty "Server error: " (toString status) (by decide)
      · rw [if_neg he]
        exact he
  | networkError msg =>
    refine ⟨?_, rfl⟩
    show (if msg = "" then
      "Failed to generate content. Please check your network and try again."
      else msg) ≠ ""
    by_cases he : msg = ""
    · rw [if_pos he]; decide
    · rw [if_neg he]; exact he
  | thrownNonError =>
    refine ⟨?_, rfl⟩
    show ("An unexpected error occurred during content generation." : String) ≠ ""
    decide

-- Example states used to instantiate theorems with hypotheses: a generator
-- state whose required fields are filled in, and an uploader state with an
-- accepted file selected.
def topicReadyState : GenState :=
  { initGenState with
    formData := { initFormData with topic := "AI", tactics := ["swot"] } }

def fileReadyState : UploadState :=
  { initUploadState with
    file := some { name := "doc.pdf", type := "application/pdf" }
    fileName := "doc.pdf" }

/-- C3: every request either component actually issues that fails leaves the
component with a non-empty error message string in view state and its
loading flag reset to false: in TacticalContentGenerator the generateContent
fetch, in FileUploader the insights and analyze posts. -/
theorem c3_failures_set_error_and_reset_loading :
    (∀ (s : GenState) (o : FetchOutcome), genFailed o = true →
      (generateContent s o).1.isSome = true →
      (generateContent s o).2.error ≠ "" ∧
      (generateContent s o).2.loading = false) ∧
    (∀ (s : UploadState) (w : AxiosOutcome InsightData), axiosFailed w = true →
      (handleInsights s w).1 = true →
      (∃ m, (handleInsights s w).2.error = some m ∧ m ≠ "") ∧
      (handleInsights s w).2.loadingInsights = false) ∧
    (∀ (s : UploadState) (w : AxiosOutcome AnalysisData), axiosFailed w = true →
      (handleAnalyze s w).1 = true →
      (∃ m, (handleAnalyze s w).2.error = some m ∧ m ≠ "") ∧
      (handleAnalyze s w).2.loadingAnalysis = false) := by
  refine ⟨?_, ?_, ?_⟩
  · intro s o hfail hsome
    by_cases hc : jsTrim s.formData.topic = "" ∨ s.formData.tactics = []
    · unfold generateContent generateContentStart at hsome
      rw [if_pos hc] at hsome
      simp at hsome
    · have he : (generateContent s o).2 = generateContentFinish
          { s with loading := true, error := "", content := "" } o := by
        unfold generateContent generateContentStart
        rw [if_neg hc]
      rw [he]
      exact generateContentFinish_failed _ o hfail
  · intro s w hfail hissued
    cases hf : s.file with
    | none =>
      unfold handleInsights at hissued
      rw [hf] at hissued
      cases hissued
    | some f =>
      unfold handleInsights
      rw [hf]
      cases w with
      | success d => simp [axiosFailed] at hfail
      | axiosError respError =>
        refine ⟨?_, rfl⟩
        cases respError with
        | none => exact ⟨_, rfl, by decide⟩
        | some e =>
          refine ⟨_, rfl, ?_⟩
          show (if e = "" then "Failed to insights. Please try again." else e) ≠ ""
          by_cases he : e = ""
          · rw [if_pos he]; decide
          · rw [if_neg he]; exact he
      | otherError => exact ⟨⟨_, rfl, by decide⟩, rfl⟩
  · intro s w hfail hissued
    cases hf : s.file with
    | none =>
      unfold handleAnalyze at hissued
      rw [hf] at hissued
      cases hissued
    | some f =>
      unfold handleAnalyze
      rw [hf]
      cases w with
      | success d => simp [axiosFailed] at hfail
      | axiosError respError =>
        refine ⟨?_, rfl⟩
        cases respError with
        | none => exact ⟨_, rfl, by decide⟩
        | some e =>
          refine ⟨_, rfl, ?_⟩
          show (if e = "" then "Failed to analyze. Please try again." else e) ≠ ""
          by_cases he : e = ""
          · rw [if_pos he]; decide
          · rw [if_neg he]; exact he
      | otherError => exact ⟨⟨_, rfl, by decide⟩, rfl⟩

/-- Witness for C3: a network error during generation and non-axios errors
during insights and analysis all leave a message and a cleared loading
flag at concrete states. -/
theorem c3_failures_witness :
    ((generateContent topicReadyState (FetchOutcome.networkError "")).2.error ≠ "" ∧
     (generateContent topicReadyState (FetchOutcome.networkError "")).2.loading = false) ∧
    ((∃ m, (handleInsights fileReadyState AxiosOutcome.otherError).2.error = some m ∧ m ≠ "") ∧
     (handleInsights fileReadyState AxiosOutcome.otherError).2.loadingInsights = false) ∧
    ((∃ m, (handleAnalyze fileReadyState AxiosOutcome.otherError).2.error = some m ∧ m ≠ "") ∧
     (handleAnalyze fileReadyState AxiosOutcome.otherError).2.loadingAnalysis = false) :=
  ⟨c3_failures_set_error_and_reset_loading.1 topicReadyState
      (FetchOutcome.networkError "") rfl (by decide),
   c3_failures_set_error_and_reset_loading.2.1 fileReadyState
      AxiosOutcome.otherError rfl rfl,
   c3_failures_set_error_and_reset_loading.2.2 fileReadyState
      AxiosOutcome.otherError rfl rfl⟩

/-- C4: whenever its precondition holds, generateContent issues a request
whose payload carries exactly the ten form fields, each equal to the
corresponding field of the current form data. -/
theorem c4_payload_matches_form (s : GenState) (o : FetchOutcome)
    (h1 : jsTrim s.formData.topic ≠ "") (h2 : s.formData.tactics ≠ []) :
    (generateContent s o).1 = some (mkPayload s.formData) ∧
    (mkPayload s.formData).contentType = s.formData.contentType ∧
    (mkPayload s.formData).topic = s.formData.topic ∧
    (mkPayload s.formData).tactics = s.formData.tactics ∧
    (mkPayload s.formData).tone = s.formData.tone ∧
    (mkPayload s.formData).length = s.formData.length ∧
    (mkPayload s.formData).complexity = s.formData.complexity ∧
    (mkPayload s.formData).audience = s.formData.audience ∧
    (mkPayload s.formData).keywords = s.formData.keywords ∧
    (mkPayload s.formData).examples = s.formData.examples ∧
    (mkPayload s.formData).humorLevel = s.formData.humorLevel := by
  have hc : ¬(jsTrim s.formData.topic = "" ∨ s.formData.tactics = []) := by
    rintro (h | h)
    exacts [h1 h, h2 h]
  unfold generateContent generateContentStart
  rw [if_neg hc]
  exact ⟨rfl, rfl, rfl, rfl, rfl, rfl, rfl, rfl, rfl, rfl, rfl⟩

/-- Witness for C4: at a filled-in state the issued payload is exactly the
form data. -/
theorem c4_payload_witness :
    (generateContent topicReadyState FetchOutcome.thrownNonError).1 =
      some (mkPayload topicReadyState.formData) ∧
    (mkPayload topicReadyState.formData).topic = topicReadyState.formData.topic :=
  ⟨(c4_payload_matches_form topicReadyState FetchOutcome.thrownNonError
      (by decide) (by decide)).1,
   (c4_payload_matches_form topicReadyState FetchOutcome.thrownNonError
      (by decide) (by decide)).2.2.1⟩

/-- C5: for an ok response, a non-empty content field is stored verbatim as
the displayed content; an absent or empty content field instead yields the
no-content error message while the displayed content stays empty. -/
theorem c5_ok_response_content (s : GenState) (c : Option String)
    (h1 : jsTrim s.formData.topic ≠ "") (h2 : s.formData.tactics ≠ []) :
    (∀ str, c = some str → str ≠ "" →
      (generateContent s (FetchOutcome.success c)).2.content = str) ∧
    ((c = none ∨ c = some "") →
      (generateContent s (FetchOutcome.success c)).2.error =
        "No content received from backend server" ∧
      (generateContent s (FetchOutcome.success c)).2.content = "") := by
  have hc : ¬(jsTrim s.formData.topic = "" ∨ s.formData.tactics = []) := by
    rintro (h | h)
    exacts [h1 h, h2 h]
  unfold generateContent generateContentStart
  rw [if_neg hc]
  constructor
  · rintro str rfl hne
    simp [generateContentFinish, hne]
  · rintro (rfl | rfl) <;> simp [generateContentFinish]

/-- Witness for C5: a concrete ok response with content is displayed, and a
concrete ok response without content yields the no-content error. -/
theorem c5_ok_response_witness :
    (generateContent topicReadyState
      (FetchOutcome.success (some "Hello"))).2.content = "Hello" ∧
    ((generateContent topicReadyState (FetchOutcome.success none)).2.error =
      "No content received from backend server" ∧
     (generateContent topicReadyState (FetchOutcome.success none)).2.content = "") :=
  ⟨(c5_ok_response_content topicReadyState (some "Hello")
      (by decide) (by decide)).1 "Hello" rfl (by decide),
   (c5_ok_response_content topicReadyState none
      (by decide) (by decide)).2 (Or.inl rfl)⟩

-- Every character produced by the whitespace-run replacement is a dash or a
-- non-whitespace character of the input, hence never whitespace.
theorem collapseWsAux_no_ws (b : Bool) (l : List Char) :
    ∀ c ∈ collapseWsAux b l, c.isWhitespace = false := by
  induction l generalizing b with
  | nil => intro c hc; cases hc
  | cons d rest ih =>
    intro c hc
    unfold collapseWsAux at hc
    by_cases hd : d.isWhitespace = true
    · rw [if_pos hd] at hc
      rcases List.mem_append.mp hc with h1 | h2
      · cases b with
        | true => simp at h1
        | false =>
          have hce : c = '-' := by simpa using h1
          subst hce; decide
      · exact ih true c h2
    · rw [if_neg hd] at hc
      rcases List.mem_cons.mp hc with rfl | h2
      · simpa using hd
      · exact ih false c h2

-- The whitespace-run replacement produces an empty character list only on
-- the empty list.
theorem collapseWsAux_false_eq_nil (l : List Char) :
    collapseWsAux false l = [] ↔ l = [] := by
  cases l with
  | nil => simp [collapseWsAux]
  | cons c rest =>
    simp only [collapseWsAux]
    by_cases hc : c.isWhitespace = true
    · rw [if_pos hc]; simp
    · rw [if_neg hc]; simp

theorem replaceWsRuns_eq_empty_iff (t : String) :
    replaceWsRuns t = "" ↔ t = "" := by
  rw [replaceWsRuns, String.ext_iff, String.ext_iff]
  show collapseWsAux false t.data = [] ↔ t.data = []
  exact collapseWsAux_false_eq_nil t.data

theorem jsToLower_eq_empty_iff (t : String) : jsToLower t = "" ↔ t = "" := by
  rw [jsToLower, String.ext_iff, String.ext_iff]
  show t.data.map Char.toLower = [] ↔ t.data = []
  simp

/-- C7: with generated content present, downloadMarkdown produces the name
tactical-content- followed by the topic with whitespace runs replaced by
dashes and lowercased, or untitled exactly when that transformed string is
empty (equivalently, when the topic itself is empty), plus the .md
extension; the replaced topic holds no whitespace. Without content,
downloadMarkdown does nothing. -/
theorem c7_download_filename (s : GenState) :
    (s.content = "" → downloadMarkdown s = none) ∧
    (s.content ≠ "" →
      downloadMarkdown s = some ("tactical-content-" ++
        (if jsToLower (replaceWsRuns s.formData.topic) = "" then "untitled"
         else jsToLower (replaceWsRuns s.formData.topic)) ++ ".md") ∧
      (∀ c ∈ (replaceWsRuns s.formData.topic).data, c.isWhitespace = false) ∧
      (jsToLower (replaceWsRuns s.formData.topic) = "" ↔ s.formData.topic = "")) := by
  refine ⟨fun h => by simp [downloadMarkdown, h], fun h => ⟨?_, ?_, ?_⟩⟩
  · simp [downloadMarkdown, h]
  · exact collapseWsAux_no_ws false s.formData.topic.data
  · rw [jsToLower_eq_empty_iff, replaceWsRuns_eq_empty_iff]

-- Example state with generated content and a multi-word topic.
def downloadExampleState : GenState :=
  { initGenState with
    content := "# Doc"
    formData := { initFormData with topic := "My  Topic X" } }

/-- Witness for C7: a concrete two-space topic yields a single dash per
whitespace run and a lowercased name, and clearing the content disables the
download. -/
theorem c7_download_filename_witness :
    downloadMarkdown downloadExampleState =
      some "tactical-content-my-topic-x.md" ∧
    downloadMarkdown { downloadExampleState with content := "" } = none := by
  constructor
  · rw [((c7_download_filename downloadExampleState).2 (by decide)).1]
    decide
  · exact (c7_download_filename { downloadExampleState with content := "" }).1 rfl

-- Run a list of UI events from a state, failing when a guard blocks one.
def runGenEvents (s : GenState) : List GenEvent → Option GenState
  | [] => some s
  | e :: es =>
    match genStep s e with
    | none => none
    | some s1 => runGenEvents s1 es

theorem genReachable_of_runGenEvents : ∀ (es : List GenEvent) (s s1 : GenState),
    GenReachable s → runGenEvents s es = some s1 → GenReachable s1 := by
  intro es
  induction es with
  | nil =>
    intro s s1 hs h
    exact (Option.some.inj h) ▸ hs
  | cons e es ih =>
    intro s s1 hs h
    unfold runGenEvents at h
    cases he : genStep s e with
    | none => rw [he] at h; cases h
    | some s2 =>
      rw [he] at h
      exact ih s2 s1 (GenReachable.step hs he) h

-- The state reached from the initial render by filling in the topic,
-- selecting one tactic, advancing through all three steps and clicking the
-- generate button while the request is still pending.
def pendingGenState : GenState :=
  { formData := { initFormData with topic := "AI", tactics := ["swot"] }
    currentStep := 3
    loading := true
    content := ""
    showAdvanced := false
    error := "" }

theorem pendingGenState_reachable : GenReachable pendingGenState :=
  genReachable_of_runGenEvents
    [GenEvent.change FormField.topic "AI", GenEvent.tacticSelect "swot",
     GenEvent.nextStep, GenEvent.nextStep, GenEvent.nextStep,
     GenEvent.generateStart]
    initGenState pendingGenState GenReachable.init (by decide)

/-- C8 counterexample: a reachable state with a pending generation request
has the loading flag set, and clearForm does not restore that state to the
initial one, because the loading flag is left set. -/
theorem c8_counterexample :
    GenReachable pendingGenState ∧
    pendingGenState.loading = true ∧
    clearForm pendingGenState ≠ initGenState ∧
    (clearForm pendingGenState).loading = true :=
  ⟨pendingGenState_reachable, rfl, by decide, rfl⟩

/-- C8 (amended): clearForm resets the form data to its defaults, empties
the generated content and the error message, returns to step 0 and hides
the advanced options, but leaves the loading flag unchanged; when no
request is pending (loading false) the result is exactly the initial
state. -/
theorem c8_clear_form_resets (s : GenState) :
    (clearForm s).formData = initFormData ∧
    (clearForm s).content = "" ∧
    (clearForm s).error = "" ∧
    (clearForm s).currentStep = 0 ∧
    (clearForm s).showAdvanced = false ∧
    (clearForm s).loading = s.loading ∧
    (s.loading = false → clearForm s = initGenState) := by
  refine ⟨rfl, rfl, rfl, rfl, rfl, rfl, ?_⟩
  intro hl
  cases s with
  | mk fd cs ld ct sa er =>
    subst hl
    rfl

/-- Witness for C8: clearing a fully filled-in idle state on the last step
restores exactly the initial state. -/
theorem c8_clear_form_witness :
    clearForm { topicReadyState with currentStep := 3, content := "Doc" } =
      initGenState :=
  (c8_clear_form_resets
    { topicReadyState with currentStep := 3, content := "Doc" }).2.2.2.2.2.2 rfl

/-- C9: handleFileSelection always clears the previous insight and analysis
data; it stores the file and its name exactly when the MIME type is PDF or
DOCX, leaving no error, and otherwise sets the unsupported-type error and
leaves no file selected. -/
theorem c9_file_selection_filters_mime (s : UploadState) (f : UFile) :
    ((handleFileSelection s f).insightData = none) ∧
    ((handleFileSelection s f).analysisData = none) ∧
    (f.type ∈ acceptedTypes →
      (handleFileSelection s f).file = some f ∧
      (handleFileSelection s f).fileName = f.name ∧
      (handleFileSelection s f).error = none) ∧
    (f.type ∉ acceptedTypes →
      (handleFileSelection s f).error =
        some "Unsupported file type. Please upload a PDF or DOCX file." ∧
      (handleFileSelection s f).file = none ∧
      (handleFileSelection s f).fileName = "") := by
  by_cases ht : f.type ∈ acceptedTypes <;>
    simp [handleFileSelection, ht]

/-- Witness for C9: a PDF is accepted and stored with its name, a plain
text file is rejected with the unsupported-type error. -/
theorem c9_file_selection_witness :
    ((handleFileSelection initUploadState
        { name := "doc.pdf", type := "application/pdf" }).file =
      some { name := "doc.pdf", type := "application/pdf" } ∧
     (handleFileSelection initUploadState
        { name := "doc.pdf", type := "application/pdf" }).fileName = "doc.pdf" ∧
     (handleFileSelection initUploadState
        { name := "doc.pdf", type := "application/pdf" }).error = none) ∧
    ((handleFileSelection initUploadState
        { name := "n.txt", type := "text/plain" }).error =
      some "Unsupported file type. Please upload a PDF or DOCX file." ∧
     (handleFileSelection initUploadState
        { name := "n.txt", type := "text/plain" }).file = none ∧
     (handleFileSelection initUploadState
        { name := "n.txt", type := "text/plain" }).fileName = "") :=
  ⟨(c9_file_selection_filters_mime initUploadState
      { name := "doc.pdf", type := "application/pdf" }).2.2.1 (by decide),
   (c9_file_selection_filters_mime initUploadState
      { name := "n.txt", type := "text/plain" }).2.2.2 (by decide)⟩

/-- C10 (amended): on a duplicate-free tactics list, handleTacticSelect
toggles membership of the value, preserves freedom from duplicates, and
applied twice with the same value returns a permutation of the original
list, which is the original list itself whenever the value was not yet
selected (when it was, the value moves to the end). -/
theorem c10_tactic_toggle (s : GenState) (v : String)
    (h : s.formData.tactics.Nodup) :
    (v ∈ (handleTacticSelect s v).formData.tactics ↔
      v ∉ s.formData.tactics) ∧
    (handleTacticSelect s v).formData.tactics.Nodup ∧
    (v ∉ s.formData.tactics →
      (handleTacticSelect (handleTacticSelect s v) v).formData.tactics =
        s.formData.tactics) ∧
    List.Perm
      (handleTacticSelect (handleTacticSelect s v) v).formData.tactics
      s.formData.tactics := by
  have htac : ∀ (t : GenState),
      (handleTacticSelect t v).formData.tactics =
        if v ∈ t.formData.tactics then
          t.formData.tactics.filter (fun x => x ≠ v)
        else t.formData.tactics ++ [v] := fun _ => rfl
  by_cases hv : v ∈ s.formData.tactics
  · have h1 : (handleTacticSelect s v).formData.tactics =
        s.formData.tactics.filter (fun x => x ≠ v) := by
      rw [htac, if_pos hv]
    have hvnotin : v ∉ (handleTacticSelect s v).formData.tactics := by
      rw [h1]; simp
    have h2 : (handleTacticSelect (handleTacticSelect s v) v).formData.tactics =
        (handleTacticSelect s v).formData.tactics ++ [v] := by
      rw [htac, if_neg hvnotin]
    refine ⟨?_, ?_, ?_, ?_⟩
    · rw [h1]; simp [hv]
    · rw [h1]; exact h.filter _
    · intro hc; exact absurd hv hc
    · rw [h2, h1]
      have hnd : (s.formData.tactics.filter (fun x => x ≠ v) ++ [v]).Nodup := by
        rw [List.nodup_append]
        exact ⟨h.filter _, List.nodup_singleton v, by simp⟩
      rw [List.perm_ext_iff_of_nodup hnd h]
      intro a
      by_cases ha : a = v
      · subst ha; simp [hv]
      · simp [ha]
  · have h1 : (handleTacticSelect s v).formData.tactics =
        s.formData.tactics ++ [v] := by
      rw [htac, if_neg hv]
    have hvin : v ∈ (handleTacticSelect s v).formData.tactics := by
      rw [h1]; simp
    have h2 : (handleTacticSelect (handleTacticSelect s v) v).formData.tactics =
        (handleTacticSelect s v).formData.tactics.filter (fun x => x ≠ v) := by
      rw [htac, if_pos hvin]
    have hfl : s.formData.tactics.filter (fun x => x ≠ v) =
        s.formData.tactics := by
      rw [List.filter_eq_self]
      intro a ha
      simp only [ne_eq, decide_eq_true_eq]
      intro he
      subst he
      exact hv ha
    have h3 : (handleTacticSelect (handleTacticSelect s v) v).formData.tactics =
        s.formData.tactics := by
      rw [h2, h1, List.filter_append, hfl]
      simp
    refine ⟨?_, ?_, fun _ => h3, h3 ▸ List.Perm.refl _⟩
    · rw [h1]; simp [hv]
    · rw [h1, List.nodup_append]
      exact ⟨h, List.nodup_singleton v, by simp [hv]⟩

-- Example state with two selected tactics for the double-toggle test.
def toggleExampleState : GenState :=
  { initGenState with
    formData := { initFormData with tactics := ["swot", "pestle"] } }

/-- C10 counterexample: from the duplicate-free list swot, pestle, toggling
swot off and on again yields pestle, swot — the same elements, but not the
original list. -/
theorem c10_counterexample :
    toggleExampleState.formData.tactics = ["swot", "pestle"] ∧
    toggleExampleState.formData.tactics.Nodup ∧
    (handleTacticSelect (handleTacticSelect toggleExampleState "swot")
      "swot").formData.tactics = ["pestle", "swot"] ∧
    (handleTacticSelect (handleTacticSelect toggleExampleState "swot")
      "swot").formData.tactics ≠ toggleExampleState.formData.tactics :=
  ⟨rfl, by decide, by decide, by decide⟩

/-- Witness for C10: toggling a fresh value on the one-element list swot
adds it, keeps the list duplicate-free, and toggling twice restores the
original list. -/
theorem c10_tactic_toggle_witness :
    ("pestle" ∈ (handleTacticSelect topicReadyState "pestle").formData.tactics ↔
      "pestle" ∉ topicReadyState.formData.tactics) ∧
    (handleTacticSelect topicReadyState "pestle").formData.tactics.Nodup ∧
    ("pestle" ∉ topicReadyState.formData.tactics →
      (handleTacticSelect (handleTacticSelect topicReadyState "pestle")
        "pestle").formData.tactics = topicReadyState.formData.tactics) ∧
    List.Perm
      (handleTacticSelect (handleTacticSelect topicReadyState "pestle")
        "pestle").formData.tactics
      topicReadyState.formData.tactics :=
  c10_tactic_toggle topicReadyState "pestle" (by decide)
